import Mathlib

/-!
Shallow embedding of the replybox repository core utilities: the Logger
class of src/lib/logger.ts and the environment accessor of src/lib/env.ts,
together with proofs of the specification claims. Host-runtime behavior
(the Intl-backed toLocaleDateString and toLocaleTimeString, and the chalk
styling library) is modelled abstractly: a Host record supplies the two
locale formatters, and a chalk instance is an enumerated style paired with
the text it decorates. The JS property lookup levels[level] follows the
prototype chain, so the model distinguishes the own chalk-instance
properties, the function-valued properties inherited from
Object.prototype, the inherited accessor property named with two leading
underscores that yields the prototype object itself, and undefined.
-/

namespace Replybox

/-- Severity levels: the closed set of the type LogLevel declared in
src/types/logger.d.ts. -/
inductive LogLevel where
  | fatal
  | error
  | warning
  | debug
  | information
deriving DecidableEq, Repr

/-- The runtime string value of a severity level (TS string literal types
are plain strings at runtime). -/
def LogLevel.name : LogLevel → String
  | .fatal => "fatal"
  | .error => "error"
  | .warning => "warning"
  | .debug => "debug"
  | .information => "information"

/-- The five chalk styling instances used by the severity table in
src/lib/logger.ts lines 28-34: chalk.bgRed.white, chalk.red, chalk.yellow,
chalk.blue, chalk.green. -/
inductive ChalkStyle where
  | bgRedWhite
  | red
  | yellow
  | blue
  | green
deriving DecidableEq, Repr

/-- A styled line of console output: the chalk style that wraps it and the
text it carries. -/
structure StyledLine where
  style : ChalkStyle
  text : String
deriving DecidableEq, Repr

/-- A printable JS value reaching console.log when Logger.log is driven
through an inherited Object.prototype function instead of a chalk
instance: a primitive string, a boolean, or a String wrapper object (the
result of calling the Object constructor on a string). -/
inductive JsPrintable where
  | str (s : String)
  | boolean (b : Bool)
  | stringObject (s : String)
deriving DecidableEq, Repr

/-- One line written to standard output by console.log in Logger.log:
either a chalk-styled line (the intended path) or the plain rendering of
a non-chalk value (the degraded path through an inherited
Object.prototype function). -/
inductive OutLine where
  | styled (line : StyledLine)
  | plain (v : JsPrintable)
deriving DecidableEq, Repr

/-- A JS exception, raised e.g. when calling a non-function value or when
an inherited Object.prototype method rejects an undefined this value. -/
inductive JsError where
  | typeError (msg : String)
deriving DecidableEq, Repr

/-- The value of the JS property lookup levels[level]: one of the five own
chalk-instance properties, a function inherited from Object.prototype, the
prototype object itself (through the inherited accessor whose name is
proto with two leading underscores, which is an object and not callable),
or undefined when no property of that name exists on the chain. -/
inductive JsValue where
  | chalkFn (c : ChalkStyle)
  | protoFn (name : String)
  | protoObj
  | undef
deriving DecidableEq, Repr

/-- The names of the function-valued properties that every JS object
literal inherits from Object.prototype. -/
def objectProtoFnNames : List String :=
  ["constructor", "hasOwnProperty", "isPrototypeOf", "propertyIsEnumerable",
   "toLocaleString", "toString", "valueOf",
   "__defineGetter__", "__defineSetter__", "__lookupGetter__", "__lookupSetter__"]

/-- The levels record of src/lib/logger.ts lines 28-34, accessed as the JS
property lookup levels[level] in Logger.log. The five declared keys are
own properties holding chalk instances; any other name is looked up on the
prototype chain: the Object.prototype function-valued properties come back
as callable values, the accessor named with two leading underscores yields
the prototype object, and everything else is undefined. -/
def levels (level : String) : JsValue :=
  if level = "fatal" then JsValue.chalkFn ChalkStyle.bgRedWhite
  else if level = "error" then JsValue.chalkFn ChalkStyle.red
  else if level = "warning" then JsValue.chalkFn ChalkStyle.yellow
  else if level = "debug" then JsValue.chalkFn ChalkStyle.blue
  else if level = "information" then JsValue.chalkFn ChalkStyle.green
  else if level ∈ objectProtoFnNames then JsValue.protoFn level
  else if level = "__proto__" then JsValue.protoObj
  else JsValue.undef

/-- Calling an inherited Object.prototype method as a bare function (ESM
code is strict, so the this value is undefined) on the two string
arguments of the console.log call in Logger.log. Only three complete
normally: toString of an undefined this value returns the string object
Undefined in brackets; isPrototypeOf returns false as soon as its first
argument is not an object, before touching the this value; and the
constructor property is the Object function, which wraps its first
argument in a String object and ignores the second. Every other inherited
method begins by converting the undefined this value to an object (either
directly or by invoking toString on it) and raises a TypeError. -/
def callProtoFn (name : String) (a _b : String) : Except JsError JsPrintable :=
  if name = "toString" then Except.ok (JsPrintable.str "[object Undefined]")
  else if name = "isPrototypeOf" then Except.ok (JsPrintable.boolean false)
  else if name = "constructor" then Except.ok (JsPrintable.stringObject a)
  else Except.error (JsError.typeError "Cannot convert undefined or null to object")

/-- A JS Date value: milliseconds since the epoch. The claims never inspect
the instant itself, only how it is routed to the locale formatters. -/
structure Date where
  ms : Int
deriving DecidableEq, Repr

/-- The host runtime services used by Logger.log: Date.prototype methods
toLocaleDateString and toLocaleTimeString, each taking the locale string
and the date. Their output is host defined, so they are fields of a record
the development quantifies over. -/
structure Host where
  toLocaleDateString : String → Date → String
  toLocaleTimeString : String → Date → String

/-- A sample host runtime used only to instantiate theorems at concrete
inputs; it renders every date in a fixed en-US style. -/
def sampleHost : Host :=
  ⟨fun _ _ => "1/1/2025", fun _ _ => "12:00:00 AM"⟩

/-- The mutable static state of the Logger class: the single private static
field locale (src/lib/logger.ts line 74). -/
structure LoggerState where
  locale : String
deriving DecidableEq, Repr

/-- The initial Logger state: locale = "en-US" (line 74). -/
def initialLoggerState : LoggerState := ⟨"en-US"⟩

/-- Logger.setLocale (lines 95-97): overwrite the static locale field. -/
def Logger.setLocale (_st : LoggerState) (locale : String) : LoggerState :=
  ⟨locale⟩

/-- The template literal of logger.ts line 237: the first argument handed
to the looked-up level value. -/
def logTemplate (level localeDate time : String) : String :=
  "[" ++ level.toUpper ++ "] (" ++ localeDate ++ " - " ++ time ++ "):"

/-- The text of one styled emitted line: the template literal, followed by
the single space chalk inserts between its two arguments, followed by the
message. -/
def logText (level localeDate time message : String) : String :=
  logTemplate level localeDate time ++ " " ++ message

/-- Logger.log (src/lib/logger.ts lines 231-238). Looks the level up in
the levels record, formats the date and the time with the current locale,
and calls the looked-up value on the template and the message, writing the
result as one console.log line. A chalk instance joins its two arguments
with one space and styles them. An inherited Object.prototype function
either completes, emitting one plain degraded line, or raises a TypeError.
When the lookup yields undefined or the non-callable prototype object,
calling it raises a TypeError. A raise happens before console.log runs, so
no output accompanies it. -/
def Logger.log (host : Host) (st : LoggerState) (message : String)
    (level : String) (date : Date) :
    Except JsError (LoggerState × List OutLine) :=
  let localeDate := host.toLocaleDateString st.locale date
  let time := host.toLocaleTimeString st.locale date
  match levels level with
  | JsValue.chalkFn logLevel =>
      Except.ok (st, [OutLine.styled ⟨logLevel, logText level localeDate time message⟩])
  | JsValue.protoFn name =>
      match callProtoFn name (logTemplate level localeDate time) message with
      | Except.error err => Except.error err
      | Except.ok v => Except.ok (st, [OutLine.plain v])
  | JsValue.protoObj =>
      Except.error (JsError.typeError "logLevel is not a function")
  | JsValue.undef =>
      Except.error (JsError.typeError "logLevel is not a function")

/-- Logger.fatal (lines 114-118): log at level "fatal". -/
def Logger.fatal (host : Host) (st : LoggerState) (message : String)
    (date : Date) : Except JsError (LoggerState × List OutLine) :=
  Logger.log host st message "fatal" date

/-- Logger.error (lines 135-139): log at level "error". -/
def Logger.error (host : Host) (st : LoggerState) (message : String)
    (date : Date) : Except JsError (LoggerState × List OutLine) :=
  Logger.log host st message "error" date

/-- Logger.warning (lines 156-160): log at level "warning". -/
def Logger.warning (host : Host) (st : LoggerState) (message : String)
    (date : Date) : Except JsError (LoggerState × List OutLine) :=
  Logger.log host st message "warning" date

/-- Logger.debug (lines 177-181): log at level "debug". -/
def Logger.debug (host : Host) (st : LoggerState) (message : String)
    (date : Date) : Except JsError (LoggerState × List OutLine) :=
  Logger.log host st message "debug" date

/-- Logger.info (lines 202-206): log at level "information". -/
def Logger.info (host : Host) (st : LoggerState) (message : String)
    (date : Date) : Except JsError (LoggerState × List OutLine) :=
  Logger.log host st message "information" date

/-- Dispatch from an abstract severity level to the corresponding public
Logger method, used to quantify over the five public methods. -/
def Logger.byLevel : LogLevel → Host → LoggerState → String → Date →
    Except JsError (LoggerState × List OutLine)
  | .fatal => Logger.fatal
  | .error => Logger.error
  | .warning => Logger.warning
  | .debug => Logger.debug
  | .information => Logger.info

/-- The style the levels record associates with each severity of the
closed set. -/
def levelStyle : LogLevel → ChalkStyle
  | .fatal => ChalkStyle.bgRedWhite
  | .error => ChalkStyle.red
  | .warning => ChalkStyle.yellow
  | .debug => ChalkStyle.blue
  | .information => ChalkStyle.green

/-- The process environment: an association list from variable names to
string values; process.env[k] is the first binding of k, or undefined. -/
abbrev Env := List (String × String)

/-- Reading process.env[k]: first binding wins, absent keys give none. -/
def Env.get (e : Env) (k : String) : Option String :=
  (e.find? (fun p => p.1 == k)).map Prod.snd

/-- Writing process.env[k] = v. Prepending a binding is observationally the
same as replacing the property, because Env.get takes the first match. -/
def Env.set (e : Env) (k v : String) : Env :=
  (k, v) :: e

/-- setOrGetNodeEnv (src/lib/env.ts lines 34-37). The resolved value is
nodeEnv ?? process.env["NODE_ENV"] ?? "development" (nullish coalescing:
only undefined falls through, an empty string does not); it is assigned to
process.env["NODE_ENV"] and then read back as the return value. -/
def setOrGetNodeEnv (e : Env) (nodeEnv : Option String) : String × Env :=
  let resolved := nodeEnv.getD ((Env.get e "NODE_ENV").getD "development")
  (resolved, Env.set e "NODE_ENV" resolved)

/-- JS falsiness of a string-or-undefined value, as tested by the
condition if (!variable) in getEnv: true for undefined and for the empty
string, false for every other string. -/
def jsFalsy : Option String → Bool
  | none => true
  | some s => s == ""

/-- The error message template of src/lib/env.ts lines 53-55, with the
original spelling kept verbatim. -/
def getEnvMessage (env : String) : String :=
  "The key \x27" ++ env ++ "\x27 does not exist! Check the \x27*.env\x27 path or key name and ensure it has the correct spellng."

/-- getEnv (src/lib/env.ts lines 49-61). Reads process.env[env]; when the
value is falsy (undefined or empty), calls Logger.error with a message
naming the key and returns undefined, otherwise returns the value with no
output. The Logger.error call is threaded explicitly so a raised exception
would propagate; the claims prove it never does. -/
def getEnv (host : Host) (st : LoggerState) (now : Date) (e : Env)
    (env : String) : Except JsError (Option String × List OutLine) :=
  let envVal := Env.get e env
  if jsFalsy envVal then
    match Logger.error host st (getEnvMessage env) now with
    | Except.error err => Except.error err
    | Except.ok (_, out) => Except.ok (none, out)
  else
    Except.ok (envVal, [])

/-- Shared helper: each of the five public Logger methods succeeds, leaves
the state unchanged, and emits exactly one line styled for its level, whose
text is the bracketed upper-cased level, the locale-formatted date and
time, and the message. -/
theorem Logger.byLevel_spec (host : Host) (st : LoggerState) (msg : String)
    (date : Date) (lvl : LogLevel) :
    Logger.byLevel lvl host st msg date =
      Except.ok (st, [OutLine.styled ⟨levelStyle lvl,
        logText lvl.name (host.toLocaleDateString st.locale date)
          (host.toLocaleTimeString st.locale date) msg⟩]) := by
  cases lvl <;> rfl

/-- Shared helper: the levels record maps the runtime name of each closed
set severity to exactly the own chalk instance levelStyle assigns it. -/
theorem levels_name (lvl : LogLevel) :
    levels lvl.name = JsValue.chalkFn (levelStyle lvl) := by
  cases lvl <;> rfl

/-- C1 counterexample: the key EMPTY_KEY is present in the environment
with value "", yet getEnv does not return that value silently; it takes
the error-logging branch, emitting one error-styled line and returning
undefined, because the JS test if (!variable) also fires on the empty
string, not only on an absent key. -/
theorem C1_counterexample :
    Env.get [("EMPTY_KEY", "")] "EMPTY_KEY" = some "" ∧
    getEnv sampleHost initialLoggerState ⟨0⟩ [("EMPTY_KEY", "")] "EMPTY_KEY" =
      Except.ok (none, [OutLine.styled ⟨ChalkStyle.red,
        logText "error" "1/1/2025" "12:00:00 AM" (getEnvMessage "EMPTY_KEY")⟩]) ∧
    getEnv sampleHost initialLoggerState ⟨0⟩ [("EMPTY_KEY", "")] "EMPTY_KEY" ≠
      Except.ok (some "", []) := by
  refine ⟨rfl, rfl, ?_⟩
  have h : getEnv sampleHost initialLoggerState ⟨0⟩ [("EMPTY_KEY", "")] "EMPTY_KEY" =
      Except.ok (none, [OutLine.styled ⟨ChalkStyle.red,
        logText "error" "1/1/2025" "12:00:00 AM" (getEnvMessage "EMPTY_KEY")⟩]) := rfl
  rw [h]
  simp

/-- C1 (amended): for every key present in the environment, if its value
is a non-empty string then getEnv returns that value and produces no log
output; if its value is the empty string the error-logging branch runs,
emitting one error-styled line and returning undefined. -/
theorem C1_getEnv_present (host : Host) (st : LoggerState) (now : Date)
    (e : Env) (key v : String) (hv : Env.get e key = some v) :
    (v ≠ "" → getEnv host st now e key = Except.ok (some v, [])) ∧
    (v = "" → getEnv host st now e key =
      Except.ok (none, [OutLine.styled ⟨ChalkStyle.red,
        logText "error" (host.toLocaleDateString st.locale now)
          (host.toLocaleTimeString st.locale now) (getEnvMessage key)⟩])) := by
  constructor
  · intro hne
    simp [getEnv, hv, jsFalsy, hne, Logger.error, Logger.log]
  · intro hempty
    subst hempty
    simp [getEnv, hv, jsFalsy, Logger.error, Logger.log, levels]

/-- C1 witness: a key present with the non-empty value value123 is
returned verbatim with no log output. -/
theorem C1_witness :
    getEnv sampleHost initialLoggerState ⟨0⟩ [("EXISTING_KEY", "value123")]
        "EXISTING_KEY" = Except.ok (some "value123", []) :=
  (C1_getEnv_present sampleHost initialLoggerState ⟨0⟩
      [("EXISTING_KEY", "value123")] "EXISTING_KEY" "value123" rfl).1
    (by decide)

/-- C2: for every key absent from the environment, getEnv raises no
exception, returns undefined, and logs exactly one line styled with the
error style whose text embeds the key name. -/
theorem C2_getEnv_absent (host : Host) (st : LoggerState) (now : Date)
    (e : Env) (key : String) (h : Env.get e key = none) :
    getEnv host st now e key =
      Except.ok (none, [OutLine.styled ⟨ChalkStyle.red,
        logText "error" (host.toLocaleDateString st.locale now)
          (host.toLocaleTimeString st.locale now) (getEnvMessage key)⟩]) ∧
    ∃ a b : String, getEnvMessage key = a ++ key ++ b := by
  refine ⟨?_, "The key \x27",
    "\x27 does not exist! Check the \x27*.env\x27 path or key name and ensure it has the correct spellng.",
    rfl⟩
  simp [getEnv, h, jsFalsy, Logger.error, Logger.log, levels]

/-- C2 witness: getEnv on the absent key DOES_NOT_EXIST in the empty
environment returns undefined with one error-styled line naming the key. -/
theorem C2_witness :
    getEnv sampleHost initialLoggerState ⟨0⟩ [] "DOES_NOT_EXIST" =
      Except.ok (none, [OutLine.styled ⟨ChalkStyle.red,
        logText "error" "1/1/2025" "12:00:00 AM" (getEnvMessage "DOES_NOT_EXIST")⟩]) ∧
    ∃ a b : String, getEnvMessage "DOES_NOT_EXIST" = a ++ "DOES_NOT_EXIST" ++ b :=
  C2_getEnv_absent sampleHost initialLoggerState ⟨0⟩ [] "DOES_NOT_EXIST" rfl

/-- C3: for every message, every severity level of the closed set, and
every timestamp, the corresponding public Logger method writes exactly one
line, carrying the style associated with that severity, of the form
bracketed upper-cased level name, then the locale-formatted date and time
in parentheses, then the message verbatim. -/
theorem C3_public_methods_emit_one_line (host : Host) (st : LoggerState)
    (msg : String) (date : Date) (lvl : LogLevel) :
    Logger.byLevel lvl host st msg date =
      Except.ok (st, [OutLine.styled ⟨levelStyle lvl,
        logText lvl.name (host.toLocaleDateString st.locale date)
          (host.toLocaleTimeString st.locale date) msg⟩]) :=
  Logger.byLevel_spec host st msg date lvl

/-- C4 counterexample: toString is outside the closed set of severity
levels, yet Logger.log does not raise on it: the lookup finds the
inherited Object.prototype.toString, a callable function, whose call with
an undefined this value completes, so one degraded unstyled line is
emitted and the call returns normally. -/
theorem C4_counterexample :
    ("toString" ≠ "fatal" ∧ "toString" ≠ "error" ∧ "toString" ≠ "warning" ∧
      "toString" ≠ "debug" ∧ "toString" ≠ "information") ∧
    Logger.log sampleHost initialLoggerState "m" "toString" ⟨0⟩ =
      Except.ok (initialLoggerState,
        [OutLine.plain (JsPrintable.str "[object Undefined]")]) :=
  ⟨by decide, rfl⟩

/-- C4 (amended): invoking the internal Logger.log with a severity level
outside the closed set raises a TypeError, either immediately because the
lookup yields undefined or the non-callable prototype object, or inside
the inherited Object.prototype method, except for the inherited keys
toString, isPrototypeOf and constructor: for those the inherited function
call completes and one degraded plain line is emitted without raising. -/
theorem C4_unknown_level (host : Host) (st : LoggerState) (msg : String)
    (date : Date) (level : String)
    (h1 : level ≠ "fatal") (h2 : level ≠ "error") (h3 : level ≠ "warning")
    (h4 : level ≠ "debug") (h5 : level ≠ "information") :
    (level ≠ "toString" → level ≠ "isPrototypeOf" → level ≠ "constructor" →
      ∃ m, Logger.log host st msg level date =
        Except.error (JsError.typeError m)) ∧
    (level = "toString" ∨ level = "isPrototypeOf" ∨ level = "constructor" →
      ∃ v, Logger.log host st msg level date =
        Except.ok (st, [OutLine.plain v])) := by
  constructor
  · intro t1 t2 t3
    by_cases hm : level ∈ objectProtoFnNames
    · refine ⟨"Cannot convert undefined or null to object", ?_⟩
      simp [Logger.log, levels, h1, h2, h3, h4, h5, hm, callProtoFn, t1, t2, t3]
    · by_cases hp : level = "__proto__"
      · subst hp
        exact ⟨"logLevel is not a function", rfl⟩
      · refine ⟨"logLevel is not a function", ?_⟩
        simp [Logger.log, levels, h1, h2, h3, h4, h5, hm, hp]
  · rintro (rfl | rfl | rfl)
    · exact ⟨JsPrintable.str "[object Undefined]", rfl⟩
    · exact ⟨JsPrintable.boolean false, rfl⟩
    · exact ⟨JsPrintable.stringObject (logTemplate "constructor"
        (host.toLocaleDateString st.locale date)
        (host.toLocaleTimeString st.locale date)), rfl⟩

/-- C4 witness: the unknown level valueOf, outside the closed set and not
one of the three completing inherited keys, raises a TypeError. -/
theorem C4_witness :
    ∃ m, Logger.log sampleHost initialLoggerState "m" "valueOf" ⟨0⟩ =
      Except.error (JsError.typeError m) :=
  (C4_unknown_level sampleHost initialLoggerState "m" ⟨0⟩ "valueOf"
      (by decide) (by decide) (by decide) (by decide) (by decide)).1
    (by decide) (by decide) (by decide)

/-- C5: for every message, every severity level of the closed set, and
every timestamp, the public logging call completes without raising an
exception. -/
theorem C5_valid_level_never_throws (host : Host) (st : LoggerState)
    (msg : String) (date : Date) (lvl : LogLevel) (err : JsError) :
    Logger.byLevel lvl host st msg date ≠ Except.error err := by
  rw [Logger.byLevel_spec]
  intro h
  exact Except.noConfusion h

/-- C6: after setLocale L, every severity-level method formats its
timestamp with locale L and leaves the state, hence the locale, unchanged,
so L governs until setLocale is called again; and setLocale applied twice
with the same value yields exactly the state of a single application. -/
theorem C6_setLocale_governs_and_idempotent (host : Host) (st : LoggerState)
    (L : String) (msg : String) (date : Date) (lvl : LogLevel) :
    Logger.byLevel lvl host (Logger.setLocale st L) msg date =
      Except.ok (Logger.setLocale st L, [OutLine.styled ⟨levelStyle lvl,
        logText lvl.name (host.toLocaleDateString L date)
          (host.toLocaleTimeString L date) msg⟩]) ∧
    Logger.setLocale (Logger.setLocale st L) L = Logger.setLocale st L :=
  ⟨Logger.byLevel_spec host (Logger.setLocale st L) msg date lvl, rfl⟩

/-- C7: a no-argument setOrGetNodeEnv call, when NODE_ENV has never been
set in the environment, returns the default development. -/
theorem C7_default_development (e : Env)
    (h : Env.get e "NODE_ENV" = none) :
    (setOrGetNodeEnv e none).1 = "development" := by
  simp [setOrGetNodeEnv, h]

/-- C7 witness: in the empty environment the no-argument call returns
development. -/
theorem C7_witness : (setOrGetNodeEnv [] none).1 = "development" :=
  C7_default_development [] rfl

/-- C8: setOrGetNodeEnv v returns v; a subsequent no-argument call returns
the same v; repeating the no-argument call, or setting v again, still
returns v: the operation is idempotent and safe to call repeatedly. -/
theorem C8_set_get_idempotent (e : Env) (v : String) :
    (setOrGetNodeEnv e (some v)).1 = v ∧
    (setOrGetNodeEnv (setOrGetNodeEnv e (some v)).2 none).1 = v ∧
    (setOrGetNodeEnv (setOrGetNodeEnv (setOrGetNodeEnv e (some v)).2 none).2
      none).1 = v ∧
    (setOrGetNodeEnv (setOrGetNodeEnv e (some v)).2 (some v)).1 = v :=
  ⟨rfl, rfl, rfl, rfl⟩

/-- C9: every setOrGetNodeEnv call, the no-argument form included, writes
the NODE_ENV entry of the environment: afterwards NODE_ENV is defined and
equals the returned value; in particular the no-argument call on an
environment with no prior NODE_ENV stores development into it. -/
theorem C9_always_writes_node_env (e : Env) (arg : Option String) :
    Env.get (setOrGetNodeEnv e arg).2 "NODE_ENV" =
      some (setOrGetNodeEnv e arg).1 ∧
    Env.get (setOrGetNodeEnv [] none).2 "NODE_ENV" = some "development" :=
  ⟨rfl, rfl⟩

/-- C10: the Logger locale is initialized to en-US, and every call to any
of the five public logging methods succeeds with the state, hence the
locale setting, unchanged: only setLocale modifies it. -/
theorem C10_logging_preserves_locale (host : Host) (st : LoggerState)
    (msg : String) (date : Date) (lvl : LogLevel) :
    initialLoggerState.locale = "en-US" ∧
    ∃ out, Logger.byLevel lvl host st msg date = Except.ok (st, out) :=
  ⟨rfl, ⟨_, Logger.byLevel_spec host st msg date lvl⟩⟩

end Replybox
